import Mathlib

/-!
Shallow embedding of the BUDC controller core (`src/budc_scpi.c`).

Strings are modelled as `List Char`; the serial transport (libserialport)
and the C library parsing routines it feeds are modelled as explicit
oracle inputs: the return value of `sp_blocking_write`, the return value
and deposited bytes of `sp_blocking_read_next`, and per-attempt exchange
outcomes for the retrying getters.  Machine floating point values are
modelled as exact rationals.  Side effects (writes to the device, buffer
releases, delays, polls) are modelled as explicit event traces.
-/

namespace Budc

/-- C `isspace` in the C locale, for the ASCII bytes the device protocol uses:
space, tab, newline, vertical tab, form feed, carriage return. -/
def isSpaceC (c : Char) : Bool :=
  c = ' ' ∨ c = '\t' ∨ c = '\n' ∨ c = '\x0b' ∨ c = '\x0c' ∨ c = '\r'

/-- `trim_whitespace` (budc_scpi.c, lines 59-67): drops leading whitespace,
then drops trailing whitespace.  (In the C code the trailing scan stops at
`end > start`, but after the leading scan the first remaining character is
never whitespace unless the whole string was whitespace, in which case the
result is empty; so the net effect is exactly drop-leading-then-trailing.) -/
def trim_whitespace (s : List Char) : List Char :=
  (((s.dropWhile isSpaceC).reverse).dropWhile isSpaceC).reverse

/-- Value of a list of decimal digit characters. -/
def digitsToNat (ds : List Char) : Nat :=
  ds.foldl (fun a c => a * 10 + (c.toNat - 48)) 0

/-- C `atoi`: skip leading whitespace, optional sign, then the longest run of
decimal digits (0 when there is none). -/
def atoiC (s : List Char) : Int :=
  let s1 := s.dropWhile isSpaceC
  if s1.head? = some '-' then -(digitsToNat (s1.tail.takeWhile Char.isDigit) : Int)
  else if s1.head? = some '+' then (digitsToNat (s1.tail.takeWhile Char.isDigit) : Int)
  else (digitsToNat (s1.takeWhile Char.isDigit) : Int)

/-- The result of the scanning phase of C `strtod`: sign, value of the
integer digits, value and count of the fractional digits, decimal exponent. -/
structure StrtodParts where
  sign : ℤ
  intVal : ℕ
  fracVal : ℕ
  fracLen : ℕ
  exp : ℤ
deriving DecidableEq, Repr

/-- Decimal-exponent part of C `strtod`: `e`/`E`, optional sign, digits. -/
def expValC (s : List Char) : ℤ :=
  if s.head? = some 'e' ∨ s.head? = some 'E' then
    if s.tail.head? = some '-' then
      -(digitsToNat (s.tail.tail.takeWhile Char.isDigit) : Int)
    else if s.tail.head? = some '+' then
      (digitsToNat (s.tail.tail.takeWhile Char.isDigit) : Int)
    else (digitsToNat (s.tail.takeWhile Char.isDigit) : Int)
  else 0

/-- Scanning phase of C `strtod` on the decimal forms the device produces:
skip leading whitespace, optional sign, integer digits, optional `.` and
fractional digits, optional decimal exponent. -/
def strtodScan (s : List Char) : StrtodParts :=
  let s1 := s.dropWhile isSpaceC
  let sign : ℤ := if s1.head? = some '-' then -1 else 1
  let s2 := if s1.head? = some '-' ∨ s1.head? = some '+' then s1.tail else s1
  let intPart := s2.takeWhile Char.isDigit
  let s3 := s2.dropWhile Char.isDigit
  let fracPart := if s3.head? = some '.' then s3.tail.takeWhile Char.isDigit else []
  let s4 := if s3.head? = some '.' then s3.tail.dropWhile Char.isDigit else s3
  ⟨sign, digitsToNat intPart, digitsToNat fracPart, fracPart.length, expValC s4⟩

/-- The exact rational value denoted by a `strtodScan` result. -/
def partsToQ (p : StrtodParts) : ℚ :=
  (p.sign : ℚ) * ((p.intVal : ℚ) + (p.fracVal : ℚ) / (10 : ℚ) ^ p.fracLen) *
    (10 : ℚ) ^ p.exp

/-- C `atof` on the decimal forms the device produces, with the parsed value
taken as an exact rational instead of a double.  A string with no leading
numeric token parses to 0, as in C. -/
def atofQ (s : List Char) : ℚ :=
  partsToQ (strtodScan s)

/-- The fixed command terminator `COMMAND_TERMINATOR` = CR LF. -/
def commandTerminator : List Char := ['\r', '\n']

/-- The command actually written: `snprintf(full_command, 256, "%s%s", command,
COMMAND_TERMINATOR)` — the verb with CR LF appended, truncated by snprintf to
255 characters (the 256-byte buffer keeps one byte for the terminator NUL). -/
def fullCommand (command : List Char) : List Char :=
  (command ++ commandTerminator).take 255

/-- Observable transport-level actions of one `budc_send_raw_command` call. -/
inductive SendEv
  | flushBoth
  | write (bytes : List Char)
  | readNext
deriving DecidableEq, Repr

/-- `budc_send_raw_command` (budc_scpi.c, lines 115-159).

Oracle inputs standing for the externals:
`conn` — `budc_is_connected(dev)`;
`respAvail`/`respLen` — whether the caller passed a non-NULL response buffer
and its size;
`writeRes` — return value of `sp_blocking_write`;
`readRes` — return value of `sp_blocking_read_next`;
`readData` — the byte stream available to that read (the buffer receives at
most `min readRes (respLen - 1)` of them).

Returns the C return code, the final content of the response buffer
(`none` when the function never stores to it), and the trace of transport
actions performed, in order. -/
def budc_send_raw_command (conn : Bool) (command : List Char)
    (respAvail : Bool) (respLen : Nat)
    (writeRes : Int) (readRes : Int) (readData : List Char) :
    Int × Option (List Char) × List SendEv :=
  if ¬ conn then (-1, none, [])
  else
    let full := fullCommand command
    let ev0 : List SendEv := [SendEv.flushBoth, SendEv.write full]
    if writeRes < (full.length : Int) then (-1, none, ev0)
    else if command.contains '?' then
      if ¬ respAvail ∨ respLen = 0 then (-1, none, ev0)
      else
        let ev1 := ev0 ++ [SendEv.readNext]
        if readRes > 0 then
          let raw := readData.take (min readRes.toNat (respLen - 1))
          let resp := trim_whitespace raw
          if resp.length = 0 then (-1, some resp, ev1)
          else (0, some resp, ev1)
        else (-1, some [], ev1)
    else (0, none, ev0)

/-! ### Retrying getters (budc_scpi.c, lines 179-245)

Each getter loops over up to `MAX_RETRIES = 3` attempts (5 for the
temperature getter); each attempt is one `budc_send_raw_command` exchange.
An attempt's outcome is abstracted by an oracle `a : Nat → Option (List Char)`:
`a i = some resp` means the call of attempt `i` returned 0 with the trimmed
response `resp` in the buffer, `a i = none` means it returned -1.
Each getter returns the C return code, the final value at the caller's
output location (threaded from its pre-call value `out`), and the number of
attempts (send invocations) made. -/

/-- Loop body of `budc_get_identity` (lines 179-185): an attempt succeeds when
the exchange succeeds and the reply is longer than 5 characters.  The caller's
text buffer is not tracked (it is clobbered by every exchange, not only on
success), only the return code and the attempt count. -/
def budc_get_identity_loop (a : Nat → Option (List Char)) :
    Nat → Nat → Int × Nat
  | _, 0 => (-1, 0)
  | i, fuel + 1 =>
    match a i with
    | some resp =>
      if resp.length > 5 then (0, 1)
      else
        let r := budc_get_identity_loop a (i + 1) fuel
        (r.1, r.2 + 1)
    | none =>
      let r := budc_get_identity_loop a (i + 1) fuel
      (r.1, r.2 + 1)

/-- `budc_get_identity`: 3 attempts starting at index 0. -/
def budc_get_identity (a : Nat → Option (List Char)) : Int × Nat :=
  budc_get_identity_loop a 0 3

/-- Loop of `budc_get_frequency_ghz` (lines 187-197): on the first successful
exchange stores `atof(response) / 1e9` and returns 0. -/
def budc_get_frequency_ghz_loop (a : Nat → Option (List Char)) (out : ℚ) :
    Nat → Nat → Int × ℚ × Nat
  | _, 0 => (-1, out, 0)
  | i, fuel + 1 =>
    match a i with
    | some resp => (0, atofQ resp / 1000000000, 1)
    | none =>
      let r := budc_get_frequency_ghz_loop a out (i + 1) fuel
      (r.1, r.2.1, r.2.2 + 1)

/-- `budc_get_frequency_ghz`: 3 attempts starting at index 0. -/
def budc_get_frequency_ghz (a : Nat → Option (List Char)) (out : ℚ) :
    Int × ℚ × Nat :=
  budc_get_frequency_ghz_loop a out 0 3

/-- Loop of `budc_get_lock_status` (lines 199-209): on the first successful
exchange stores `atoi(response) == 1` and returns 0. -/
def budc_get_lock_status_loop (a : Nat → Option (List Char)) (out : Bool) :
    Nat → Nat → Int × Bool × Nat
  | _, 0 => (-1, out, 0)
  | i, fuel + 1 =>
    match a i with
    | some resp => (0, decide (atoiC resp = 1), 1)
    | none =>
      let r := budc_get_lock_status_loop a out (i + 1) fuel
      (r.1, r.2.1, r.2.2 + 1)

/-- `budc_get_lock_status`: 3 attempts starting at index 0. -/
def budc_get_lock_status (a : Nat → Option (List Char)) (out : Bool) :
    Int × Bool × Nat :=
  budc_get_lock_status_loop a out 0 3

/-- The numeric-token scan of `budc_get_temperature_c` (lines 216-219):
advance `num_start` past every character that is not a digit, not `-` and
not `.`. -/
def numScan (resp : List Char) : List Char :=
  resp.dropWhile (fun c => ¬ (c.isDigit ∨ c = '-' ∨ c = '.'))

/-- Acceptance test applied by attempt `i` of `budc_get_temperature_c`
(lines 216-228): the scanned token must be nonempty, its value must lie in
[-50, 150], and a value of exactly 0 is accepted only when `i = 4` (the
fifth and final attempt).  Returns the value stored on acceptance. -/
def tempAccept (i : Nat) (resp : List Char) : Option ℚ :=
  let ns := numScan resp
  if ns = [] then none
  else
    let v := atofQ ns
    if -50 ≤ v ∧ v ≤ 150 then
      if v ≠ 0 ∨ i = 4 then some v else none
    else none

/-- Loop of `budc_get_temperature_c` (lines 211-233): 5 attempts; a successful
exchange whose reply fails `tempAccept` consumes the attempt like a transport
failure. -/
def budc_get_temperature_c_loop (a : Nat → Option (List Char)) (out : ℚ) :
    Nat → Nat → Int × ℚ × Nat
  | _, 0 => (-1, out, 0)
  | i, fuel + 1 =>
    match a i with
    | some resp =>
      match tempAccept i resp with
      | some v => (0, v, 1)
      | none =>
        let r := budc_get_temperature_c_loop a out (i + 1) fuel
        (r.1, r.2.1, r.2.2 + 1)
    | none =>
      let r := budc_get_temperature_c_loop a out (i + 1) fuel
      (r.1, r.2.1, r.2.2 + 1)

/-- `budc_get_temperature_c`: 5 attempts starting at index 0. -/
def budc_get_temperature_c (a : Nat → Option (List Char)) (out : ℚ) :
    Int × ℚ × Nat :=
  budc_get_temperature_c_loop a out 0 5

/-- Loop of `budc_get_power_level` (lines 235-245): on the first successful
exchange stores `atoi(response)` and returns 0. -/
def budc_get_power_level_loop (a : Nat → Option (List Char)) (out : Int) :
    Nat → Nat → Int × Int × Nat
  | _, 0 => (-1, out, 0)
  | i, fuel + 1 =>
    match a i with
    | some resp => (0, atoiC resp, 1)
    | none =>
      let r := budc_get_power_level_loop a out (i + 1) fuel
      (r.1, r.2.1, r.2.2 + 1)

/-- `budc_get_power_level`: 3 attempts starting at index 0. -/
def budc_get_power_level (a : Nat → Option (List Char)) (out : Int) :
    Int × Int × Nat :=
  budc_get_power_level_loop a out 0 3

/-! ### Lock-acquisition orchestrator (budc_scpi.c, lines 270-286) -/

/-- Observable actions of the orchestrator: one lock-status query per loop
iteration, and fixed delays. -/
inductive WaitEv
  | lockQuery (i : Nat)
  | delayMs (ms : Nat)
deriving DecidableEq, Repr

/-- `budc_wait_for_lock` (lines 270-280).  `env i` is the outcome of the
lock-status getter on poll `i` (`none` — getter failed; `some b` — getter
succeeded reporting locked = `b`); `clk i` is the elapsed-milliseconds value
`(current - start) / CLOCKS_PER_SEC * 1000.0` computed on poll `i`.  The C
loop has no bound of its own, so the model takes a fuel bound and returns
`none` when the loop has not terminated within it; `some r` is the C return
value.  The trace records the polls made. -/
def budc_wait_for_lock (env : Nat → Option Bool) (clk : Nat → ℚ)
    (timeout_ms : ℚ) : Nat → Nat → Option Int × List WaitEv
  | _, 0 => (none, [])
  | i, fuel + 1 =>
    if env i = some true then (some 0, [WaitEv.lockQuery i])
    else if clk i > timeout_ms then (some (-1), [WaitEv.lockQuery i])
    else
      let r := budc_wait_for_lock env clk timeout_ms (i + 1) fuel
      (r.1, WaitEv.lockQuery i :: WaitEv.delayMs 200 :: r.2)

/-- `budc_set_frequency_and_wait` (lines 282-286).  `setRes` is the return
value of the `budc_set_frequency_ghz` transport exchange; on failure the
function returns -1 having performed nothing further, otherwise it delays
200 ms and delegates to `budc_wait_for_lock` with the caller's timeout. -/
def budc_set_frequency_and_wait (setRes : Int) (env : Nat → Option Bool)
    (clk : Nat → ℚ) (timeout_ms : ℚ) (fuel : Nat) : Option Int × List WaitEv :=
  if setRes ≠ 0 then (some (-1), [])
  else
    let w := budc_wait_for_lock env clk timeout_ms 0 fuel
    (w.1, WaitEv.delayMs 200 :: w.2)

/-! ### Connection lifecycle (budc_scpi.c, lines 70-112) -/

/-- The handle: `struct budc_device { struct sp_port* port; }`, with the
pointer abstracted to whether it is non-null. -/
structure budc_device where
  port : Bool
deriving DecidableEq, Repr

/-- Externals of one `budc_connect` call.  `cfgOk` stands for the conjunction
of the return values of the seven reconfiguration calls
(`sp_set_baudrate/bits/parity/stopbits/flowcontrol/dtr/rts`); the C code
discards all seven, so the model takes it as input and never reads it. -/
structure ConnEnv where
  getPortOk : Bool
  openOk : Bool
  cfgOk : Bool
  mallocOk : Bool
deriving DecidableEq, Repr

/-- Resource-management actions of `budc_connect` / `budc_disconnect`. -/
inductive ResEv
  | spClose
  | spFreePort
  | freeDev
  | cfgCalls
  | flushBoth
deriving DecidableEq, Repr

/-- `budc_connect` (lines 70-99): look the port up by name, open it
read-write, apply the line configuration and DTR/RTS (results unchecked),
allocate the handle, flush and return.  Returns the handle (or `none`) and
the trace of configuration/release actions performed. -/
def budc_connect (e : ConnEnv) : Option budc_device × List ResEv :=
  if ¬ e.getPortOk then (none, [])
  else if ¬ e.openOk then (none, [ResEv.spFreePort])
  else if ¬ e.mallocOk then
    (none, [ResEv.cfgCalls, ResEv.spClose, ResEv.spFreePort])
  else (some ⟨true⟩, [ResEv.cfgCalls, ResEv.flushBoth])

/-- `budc_disconnect` (lines 101-110).  The code can observe only whether the
pointer it is given is null, and, when it is not, the value read from
`dev->port`; `devNull` and `portField` are those two observations.  Returns
the release actions performed. -/
def budc_disconnect (devNull : Bool) (portField : Bool) : List ResEv :=
  if devNull then []
  else
    (if portField then [ResEv.spClose, ResEv.spFreePort] else []) ++
      [ResEv.freeDev]

/-! ### Helper lemmas -/

/-- The first character surviving `List.dropWhile p` fails `p`. -/
theorem dropWhile_head_false (p : Char → Bool) (l : List Char) (c : Char)
    (h : (l.dropWhile p).head? = some c) : p c = false := by
  induction l with
  | nil => simp [List.dropWhile] at h
  | cons a t ih =>
    rw [List.dropWhile_cons] at h
    by_cases hp : p a
    · simp only [if_pos hp] at h
      exact ih h
    · simp only [if_neg hp, List.head?_cons, Option.some.injEq] at h
      subst h
      simpa using hp

/-- `List.dropWhile` keeps a suffix, so when the result is nonempty its last
element is the last element of the input. -/
theorem dropWhile_getLast?_eq (p : Char → Bool) (l : List Char)
    (h : l.dropWhile p ≠ []) : (l.dropWhile p).getLast? = l.getLast? := by
  induction l with
  | nil => simp [List.dropWhile] at h
  | cons a t ih =>
    rw [List.dropWhile_cons]
    by_cases hp : p a
    · rw [List.dropWhile_cons, if_pos hp] at h
      have ht : t ≠ [] := by
        intro he
        subst he
        simp [List.dropWhile] at h
      rw [if_pos hp, ih h]
      cases t with
      | nil => exact absurd rfl ht
      | cons b t2 => rw [List.getLast?_cons_cons]
    · rw [if_neg hp]

/-- The first character of a trimmed string is not whitespace. -/
theorem trim_whitespace_head (s : List Char) (c : Char)
    (h : (trim_whitespace s).head? = some c) : isSpaceC c = false := by
  rw [trim_whitespace, List.head?_reverse] at h
  have hne : List.dropWhile isSpaceC (s.dropWhile isSpaceC).reverse ≠ [] := by
    intro he
    rw [he] at h
    simp at h
  rw [dropWhile_getLast?_eq _ _ hne, List.getLast?_reverse] at h
  exact dropWhile_head_false _ _ _ h

/-- The last character of a trimmed string is not whitespace. -/
theorem trim_whitespace_getLast (s : List Char) (c : Char)
    (h : (trim_whitespace s).getLast? = some c) : isSpaceC c = false := by
  rw [trim_whitespace, List.getLast?_reverse] at h
  exact dropWhile_head_false _ _ _ h

/-! ### Claim theorems -/

/-- C6: for every query command sent through `budc_send_raw_command` the bytes
read are trimmed of leading and trailing whitespace (the success value is the
`trim_whitespace` image of the bytes deposited by the read, and a trimmed
string starts and ends with non-whitespace); a read of zero or negative
bytes, or a read whose trimmed content is empty, yields failure, so an empty
string is never returned as a success value; and a non-query command returns
success with no response payload once the full terminated command is
written. -/
theorem budc_send_raw_command_spec :
    ∀ (conn : Bool) (command : List Char) (respAvail : Bool) (respLen : Nat)
      (writeRes readRes : Int) (readData : List Char),
      (command.contains '?' = true →
        (budc_send_raw_command conn command respAvail respLen writeRes readRes readData).1 = 0 →
          (budc_send_raw_command conn command respAvail respLen writeRes readRes readData).2.1 =
            some (trim_whitespace (readData.take (min readRes.toNat (respLen - 1)))) ∧
          trim_whitespace (readData.take (min readRes.toNat (respLen - 1))) ≠ []) ∧
      (command.contains '?' = true → readRes ≤ 0 →
        (budc_send_raw_command conn command respAvail respLen writeRes readRes readData).1 = -1) ∧
      (command.contains '?' = true →
        trim_whitespace (readData.take (min readRes.toNat (respLen - 1))) = [] →
        (budc_send_raw_command conn command respAvail respLen writeRes readRes readData).1 = -1) ∧
      (conn = true → command.contains '?' = false →
        ((fullCommand command).length : Int) ≤ writeRes →
        budc_send_raw_command conn command respAvail respLen writeRes readRes readData =
          (0, none, [SendEv.flushBoth, SendEv.write (fullCommand command)])) ∧
      (∀ (s : List Char) (c : Char),
        ((trim_whitespace s).head? = some c → isSpaceC c = false) ∧
        ((trim_whitespace s).getLast? = some c → isSpaceC c = false)) := by
  intro conn command respAvail respLen writeRes readRes readData
  refine ⟨?_, ?_, ?_, ?_, fun s c => ⟨trim_whitespace_head s c, trim_whitespace_getLast s c⟩⟩ <;>
    simp only [budc_send_raw_command] <;> split_ifs <;> simp_all

/-- C10: a query command presented with a null response buffer or a
zero-length response buffer fails, but only after the full terminated
command has been written: the transport trace of the failing call is
exactly the flush followed by the write of the full command — the
null/zero-buffer check runs after the write, and no read is attempted. -/
theorem budc_send_raw_command_write_before_buffer_check :
    ∀ (conn : Bool) (command : List Char) (respAvail : Bool) (respLen : Nat)
      (writeRes readRes : Int) (readData : List Char),
      conn = true → command.contains '?' = true →
      (respAvail = false ∨ respLen = 0) →
      ((fullCommand command).length : Int) ≤ writeRes →
      budc_send_raw_command conn command respAvail respLen writeRes readRes readData =
        (-1, none, [SendEv.flushBoth, SendEv.write (fullCommand command)]) := by
  intro conn command respAvail respLen writeRes readRes readData hc hq hb hw
  simp only [budc_send_raw_command]
  split_ifs <;> simp_all

/-! ### Retry lemmas for the getters -/

theorem budc_get_identity_succeeds_at (a : Nat → Option (List Char))
    (k : Nat) (resp : List Char) (hk : k < 3) (hfail : ∀ j, j < k → a j = none)
    (hsucc : a k = some resp) (hlen : resp.length > 5) :
    budc_get_identity a = (0, k + 1) := by
  interval_cases k
  · simp [budc_get_identity, budc_get_identity_loop, hsucc, hlen]
  · have h0 := hfail 0 (by norm_num)
    simp [budc_get_identity, budc_get_identity_loop, h0, hsucc, hlen]
  · have h0 := hfail 0 (by norm_num)
    have h1 := hfail 1 (by norm_num)
    simp [budc_get_identity, budc_get_identity_loop, h0, h1, hsucc, hlen]

theorem budc_get_identity_all_fail (a : Nat → Option (List Char))
    (h : ∀ j, j < 3 → a j = none) : budc_get_identity a = (-1, 3) := by
  have h0 := h 0 (by norm_num)
  have h1 := h 1 (by norm_num)
  have h2 := h 2 (by norm_num)
  simp [budc_get_identity, budc_get_identity_loop, h0, h1, h2]

theorem budc_get_frequency_ghz_succeeds_at (a : Nat → Option (List Char))
    (out : ℚ) (k : Nat) (resp : List Char) (hk : k < 3)
    (hfail : ∀ j, j < k → a j = none) (hsucc : a k = some resp) :
    budc_get_frequency_ghz a out = (0, atofQ resp / 1000000000, k + 1) := by
  interval_cases k
  · simp [budc_get_frequency_ghz, budc_get_frequency_ghz_loop, hsucc]
  · have h0 := hfail 0 (by norm_num)
    simp [budc_get_frequency_ghz, budc_get_frequency_ghz_loop, h0, hsucc]
  · have h0 := hfail 0 (by norm_num)
    have h1 := hfail 1 (by norm_num)
    simp [budc_get_frequency_ghz, budc_get_frequency_ghz_loop, h0, h1, hsucc]

theorem budc_get_frequency_ghz_all_fail (a : Nat → Option (List Char))
    (out : ℚ) (h : ∀ j, j < 3 → a j = none) :
    budc_get_frequency_ghz a out = (-1, out, 3) := by
  have h0 := h 0 (by norm_num)
  have h1 := h 1 (by norm_num)
  have h2 := h 2 (by norm_num)
  simp [budc_get_frequency_ghz, budc_get_frequency_ghz_loop, h0, h1, h2]

theorem budc_get_lock_status_succeeds_at (a : Nat → Option (List Char))
    (out : Bool) (k : Nat) (resp : List Char) (hk : k < 3)
    (hfail : ∀ j, j < k → a j = none) (hsucc : a k = some resp) :
    budc_get_lock_status a out = (0, decide (atoiC resp = 1), k + 1) := by
  interval_cases k
  · simp [budc_get_lock_status, budc_get_lock_status_loop, hsucc]
  · have h0 := hfail 0 (by norm_num)
    simp [budc_get_lock_status, budc_get_lock_status_loop, h0, hsucc]
  · have h0 := hfail 0 (by norm_num)
    have h1 := hfail 1 (by norm_num)
    simp [budc_get_lock_status, budc_get_lock_status_loop, h0, h1, hsucc]

theorem budc_get_lock_status_all_fail (a : Nat → Option (List Char))
    (out : Bool) (h : ∀ j, j < 3 → a j = none) :
    budc_get_lock_status a out = (-1, out, 3) := by
  have h0 := h 0 (by norm_num)
  have h1 := h 1 (by norm_num)
  have h2 := h 2 (by norm_num)
  simp [budc_get_lock_status, budc_get_lock_status_loop, h0, h1, h2]

theorem budc_get_power_level_succeeds_at (a : Nat → Option (List Char))
    (out : Int) (k : Nat) (resp : List Char) (hk : k < 3)
    (hfail : ∀ j, j < k → a j = none) (hsucc : a k = some resp) :
    budc_get_power_level a out = (0, atoiC resp, k + 1) := by
  interval_cases k
  · simp [budc_get_power_level, budc_get_power_level_loop, hsucc]
  · have h0 := hfail 0 (by norm_num)
    simp [budc_get_power_level, budc_get_power_level_loop, h0, hsucc]
  · have h0 := hfail 0 (by norm_num)
    have h1 := hfail 1 (by norm_num)
    simp [budc_get_power_level, budc_get_power_level_loop, h0, h1, hsucc]

theorem budc_get_power_level_all_fail (a : Nat → Option (List Char))
    (out : Int) (h : ∀ j, j < 3 → a j = none) :
    budc_get_power_level a out = (-1, out, 3) := by
  have h0 := h 0 (by norm_num)
  have h1 := h 1 (by norm_num)
  have h2 := h 2 (by norm_num)
  simp [budc_get_power_level, budc_get_power_level_loop, h0, h1, h2]

theorem budc_get_temperature_c_succeeds_at (a : Nat → Option (List Char))
    (out : ℚ) (k : Nat) (resp : List Char) (v : ℚ) (hk : k < 5)
    (hfail : ∀ j, j < k → a j = none) (hsucc : a k = some resp)
    (hacc : tempAccept k resp = some v) :
    budc_get_temperature_c a out = (0, v, k + 1) := by
  interval_cases k
  · simp [budc_get_temperature_c, budc_get_temperature_c_loop, hsucc, hacc]
  · have h0 := hfail 0 (by norm_num)
    simp [budc_get_temperature_c, budc_get_temperature_c_loop, h0, hsucc, hacc]
  · have h0 := hfail 0 (by norm_num)
    have h1 := hfail 1 (by norm_num)
    simp [budc_get_temperature_c, budc_get_temperature_c_loop, h0, h1, hsucc, hacc]
  · have h0 := hfail 0 (by norm_num)
    have h1 := hfail 1 (by norm_num)
    have h2 := hfail 2 (by norm_num)
    simp [budc_get_temperature_c, budc_get_temperature_c_loop, h0, h1, h2, hsucc, hacc]
  · have h0 := hfail 0 (by norm_num)
    have h1 := hfail 1 (by norm_num)
    have h2 := hfail 2 (by norm_num)
    have h3 := hfail 3 (by norm_num)
    simp [budc_get_temperature_c, budc_get_temperature_c_loop, h0, h1, h2, h3, hsucc, hacc]

theorem budc_get_temperature_c_all_fail (a : Nat → Option (List Char))
    (out : ℚ) (h : ∀ j, j < 5 → a j = none) :
    budc_get_temperature_c a out = (-1, out, 5) := by
  have h0 := h 0 (by norm_num)
  have h1 := h 1 (by norm_num)
  have h2 := h 2 (by norm_num)
  have h3 := h 3 (by norm_num)
  have h4 := h 4 (by norm_num)
  simp [budc_get_temperature_c, budc_get_temperature_c_loop, h0, h1, h2, h3, h4]

/-! ### Frame lemmas: the out-parameter is untouched on failure -/

theorem budc_get_frequency_ghz_loop_frame (a : Nat → Option (List Char))
    (out : ℚ) : ∀ (fuel i : Nat),
    (budc_get_frequency_ghz_loop a out i fuel).1 = -1 →
    (budc_get_frequency_ghz_loop a out i fuel).2.1 = out := by
  intro fuel
  induction fuel with
  | zero => intro i _; rfl
  | succ n ih =>
    intro i h
    cases ha : a i with
    | some resp => simp [budc_get_frequency_ghz_loop, ha] at h
    | none =>
      simp only [budc_get_frequency_ghz_loop, ha] at h ⊢
      exact ih (i + 1) h

theorem budc_get_lock_status_loop_frame (a : Nat → Option (List Char))
    (out : Bool) : ∀ (fuel i : Nat),
    (budc_get_lock_status_loop a out i fuel).1 = -1 →
    (budc_get_lock_status_loop a out i fuel).2.1 = out := by
  intro fuel
  induction fuel with
  | zero => intro i _; rfl
  | succ n ih =>
    intro i h
    cases ha : a i with
    | some resp => simp [budc_get_lock_status_loop, ha] at h
    | none =>
      simp only [budc_get_lock_status_loop, ha] at h ⊢
      exact ih (i + 1) h

theorem budc_get_power_level_loop_frame (a : Nat → Option (List Char))
    (out : Int) : ∀ (fuel i : Nat),
    (budc_get_power_level_loop a out i fuel).1 = -1 →
    (budc_get_power_level_loop a out i fuel).2.1 = out := by
  intro fuel
  induction fuel with
  | zero => intro i _; rfl
  | succ n ih =>
    intro i h
    cases ha : a i with
    | some resp => simp [budc_get_power_level_loop, ha] at h
    | none =>
      simp only [budc_get_power_level_loop, ha] at h ⊢
      exact ih (i + 1) h

theorem budc_get_temperature_c_loop_frame (a : Nat → Option (List Char))
    (out : ℚ) : ∀ (fuel i : Nat),
    (budc_get_temperature_c_loop a out i fuel).1 = -1 →
    (budc_get_temperature_c_loop a out i fuel).2.1 = out := by
  intro fuel
  induction fuel with
  | zero => intro i _; rfl
  | succ n ih =>
    intro i h
    cases ha : a i with
    | some resp =>
      cases hacc : tempAccept i resp with
      | some v => simp [budc_get_temperature_c_loop, ha, hacc] at h
      | none =>
        simp only [budc_get_temperature_c_loop, ha, hacc] at h ⊢
        exact ih (i + 1) h
    | none =>
      simp only [budc_get_temperature_c_loop, ha] at h ⊢
      exact ih (i + 1) h

/-- C5: whenever an attempt's transport exchange succeeds (after any number
of failed attempts within the budget), `budc_get_lock_status` returns success
and reports locked exactly when the trimmed reply has the integer value 1
(C `atoi`); any other reply — including a malformed, non-numeric one, which
`atoi` parses as 0 — reports unlocked without failing the getter.  There is
no third state: the out-parameter is the boolean `atoi(response) == 1`. -/
theorem budc_get_lock_status_spec :
    ∀ (a : Nat → Option (List Char)) (out : Bool) (k : Nat) (resp : List Char),
      k < 3 → (∀ j, j < k → a j = none) → a k = some resp →
      budc_get_lock_status a out = (0, decide (atoiC resp = 1), k + 1) ∧
      (atoiC resp = 1 → (budc_get_lock_status a out).2.1 = true) ∧
      (atoiC resp ≠ 1 → (budc_get_lock_status a out).2.1 = false) := by
  intro a out k resp hk hfail hsucc
  have main := budc_get_lock_status_succeeds_at a out k resp hk hfail hsucc
  refine ⟨main, fun h1 => ?_, fun hne => ?_⟩
  · rw [main]
    simp [h1]
  · rw [main]
    simp [hne]

/-- C2: each retrying getter makes attempts up to its fixed ceiling
(3 for identity, frequency, lock and power; 5 for temperature).  If the
transport fails the first N-1 attempts and the Nth attempt succeeds with an
acceptable response (any response for frequency/lock/power, one longer than
5 characters for identity, one passing the plausibility test for
temperature), N within the ceiling, the getter returns success having made
exactly N attempts; if every attempt fails, it returns failure having made
exactly the ceiling number of attempts — no more, no fewer. -/
theorem getters_retry_budget :
    (∀ (a : Nat → Option (List Char)) (k : Nat) (resp : List Char),
      k < 3 → (∀ j, j < k → a j = none) → a k = some resp → resp.length > 5 →
      budc_get_identity a = (0, k + 1)) ∧
    (∀ (a : Nat → Option (List Char)), (∀ j, j < 3 → a j = none) →
      budc_get_identity a = (-1, 3)) ∧
    (∀ (a : Nat → Option (List Char)) (out : ℚ) (k : Nat) (resp : List Char),
      k < 3 → (∀ j, j < k → a j = none) → a k = some resp →
      budc_get_frequency_ghz a out = (0, atofQ resp / 1000000000, k + 1)) ∧
    (∀ (a : Nat → Option (List Char)) (out : ℚ), (∀ j, j < 3 → a j = none) →
      budc_get_frequency_ghz a out = (-1, out, 3)) ∧
    (∀ (a : Nat → Option (List Char)) (out : Bool) (k : Nat) (resp : List Char),
      k < 3 → (∀ j, j < k → a j = none) → a k = some resp →
      budc_get_lock_status a out = (0, decide (atoiC resp = 1), k + 1)) ∧
    (∀ (a : Nat → Option (List Char)) (out : Bool), (∀ j, j < 3 → a j = none) →
      budc_get_lock_status a out = (-1, out, 3)) ∧
    (∀ (a : Nat → Option (List Char)) (out : Int) (k : Nat) (resp : List Char),
      k < 3 → (∀ j, j < k → a j = none) → a k = some resp →
      budc_get_power_level a out = (0, atoiC resp, k + 1)) ∧
    (∀ (a : Nat → Option (List Char)) (out : Int), (∀ j, j < 3 → a j = none) →
      budc_get_power_level a out = (-1, out, 3)) ∧
    (∀ (a : Nat → Option (List Char)) (out : ℚ) (k : Nat) (resp : List Char) (v : ℚ),
      k < 5 → (∀ j, j < k → a j = none) → a k = some resp →
      tempAccept k resp = some v →
      budc_get_temperature_c a out = (0, v, k + 1)) ∧
    (∀ (a : Nat → Option (List Char)) (out : ℚ), (∀ j, j < 5 → a j = none) →
      budc_get_temperature_c a out = (-1, out, 5)) :=
  ⟨fun a k resp hk hf hs hl => budc_get_identity_succeeds_at a k resp hk hf hs hl,
   fun a h => budc_get_identity_all_fail a h,
   fun a out k resp hk hf hs => budc_get_frequency_ghz_succeeds_at a out k resp hk hf hs,
   fun a out h => budc_get_frequency_ghz_all_fail a out h,
   fun a out k resp hk hf hs => budc_get_lock_status_succeeds_at a out k resp hk hf hs,
   fun a out h => budc_get_lock_status_all_fail a out h,
   fun a out k resp hk hf hs => budc_get_power_level_succeeds_at a out k resp hk hf hs,
   fun a out h => budc_get_power_level_all_fail a out h,
   fun a out k resp v hk hf hs hacc =>
     budc_get_temperature_c_succeeds_at a out k resp v hk hf hs hacc,
   fun a out h => budc_get_temperature_c_all_fail a out h⟩

/-- C9: each numeric getter (frequency, lock, temperature, power) stores to
the caller's output location only on the success path: whenever the getter
returns -1, the value at the output location is the value it held before the
call. -/
theorem getters_frame_on_failure :
    (∀ (a : Nat → Option (List Char)) (out : ℚ),
      (budc_get_frequency_ghz a out).1 = -1 →
      (budc_get_frequency_ghz a out).2.1 = out) ∧
    (∀ (a : Nat → Option (List Char)) (out : Bool),
      (budc_get_lock_status a out).1 = -1 →
      (budc_get_lock_status a out).2.1 = out) ∧
    (∀ (a : Nat → Option (List Char)) (out : ℚ),
      (budc_get_temperature_c a out).1 = -1 →
      (budc_get_temperature_c a out).2.1 = out) ∧
    (∀ (a : Nat → Option (List Char)) (out : Int),
      (budc_get_power_level a out).1 = -1 →
      (budc_get_power_level a out).2.1 = out) :=
  ⟨fun a out h => budc_get_frequency_ghz_loop_frame a out 3 0 h,
   fun a out h => budc_get_lock_status_loop_frame a out 3 0 h,
   fun a out h => budc_get_temperature_c_loop_frame a out 5 0 h,
   fun a out h => budc_get_power_level_loop_frame a out 3 0 h⟩

/-- C1: on every attempt of `budc_get_temperature_c`, a parsed value is
accepted only when it lies in the closed range [-50, 150]; within that
range an exact 0 is rejected on attempts 1-4 (indices 0-3) and accepted on
the fifth and final attempt (index 4); with the first four exchanges
failing and the fifth returning a reading that parses to 0, the getter
returns success with value 0 rather than failing. -/
theorem budc_get_temperature_c_plausibility :
    (∀ (i : Nat) (resp : List Char) (v : ℚ), tempAccept i resp = some v →
      ((-50 ≤ v ∧ v ≤ 150) ∧ (v = 0 → i = 4))) ∧
    (∀ (i : Nat) (resp : List Char), numScan resp ≠ [] →
      -50 ≤ atofQ (numScan resp) → atofQ (numScan resp) ≤ 150 →
      (atofQ (numScan resp) ≠ 0 ∨ i = 4) →
      tempAccept i resp = some (atofQ (numScan resp))) ∧
    (∀ (i : Nat) (resp : List Char), i ≠ 4 → atofQ (numScan resp) = 0 →
      tempAccept i resp = none) ∧
    (∀ (a : Nat → Option (List Char)) (out : ℚ) (resp : List Char),
      (∀ j, j < 4 → a j = none) → a 4 = some resp →
      numScan resp ≠ [] → atofQ (numScan resp) = 0 →
      budc_get_temperature_c a out = (0, 0, 5)) := by
  refine ⟨?_, ?_, ?_, ?_⟩
  · intro i resp v h
    simp only [tempAccept] at h
    by_cases hns : numScan resp = []
    · rw [if_pos hns] at h
      exact absurd h (by simp)
    · rw [if_neg hns] at h
      by_cases hr : -50 ≤ atofQ (numScan resp) ∧ atofQ (numScan resp) ≤ 150
      · rw [if_pos hr] at h
        by_cases hc : atofQ (numScan resp) ≠ 0 ∨ i = 4
        · rw [if_pos hc] at h
          simp only [Option.some.injEq] at h
          subst h
          refine ⟨hr, fun hv0 => ?_⟩
          rcases hc with hc | hc
          · exact absurd hv0 hc
          · exact hc
        · rw [if_neg hc] at h
          exact absurd h (by simp)
      · rw [if_neg hr] at h
        exact absurd h (by simp)
  · intro i resp hne hlo hhi hz
    simp only [tempAccept]
    rw [if_neg hne, if_pos ⟨hlo, hhi⟩, if_pos hz]
  · intro i resp hi hz
    simp only [tempAccept]
    by_cases hne : numScan resp = []
    · rw [if_pos hne]
    · rw [if_neg hne, if_pos (by rw [hz]; norm_num),
        if_neg (by push_neg; exact ⟨hz, hi⟩)]
  · intro a out resp hfail hsucc hne hz
    have hacc : tempAccept 4 resp = some 0 := by
      simp only [tempAccept]
      rw [if_neg hne, if_pos (by rw [hz]; norm_num), if_pos (by simp), hz]
    exact budc_get_temperature_c_succeeds_at a out 4 resp 0 (by norm_num) hfail hsucc hacc

/-- C4: if the frequency-set exchange fails, `budc_set_frequency_and_wait`
returns failure immediately with an empty trace — in particular no
lock-status query and no delay is performed; if the set succeeds, it
performs the fixed 200 ms settling delay and then delegates to
`budc_wait_for_lock` with the caller's timeout, returning that call's
result. -/
theorem budc_set_frequency_and_wait_spec :
    ∀ (setRes : Int) (env : Nat → Option Bool) (clk : Nat → ℚ)
      (timeout_ms : ℚ) (fuel : Nat),
      (setRes ≠ 0 →
        budc_set_frequency_and_wait setRes env clk timeout_ms fuel =
          (some (-1), [])) ∧
      (setRes = 0 →
        budc_set_frequency_and_wait setRes env clk timeout_ms fuel =
          ((budc_wait_for_lock env clk timeout_ms 0 fuel).1,
            WaitEv.delayMs 200 :: (budc_wait_for_lock env clk timeout_ms 0 fuel).2)) := by
  intro setRes env clk timeout_ms fuel
  constructor
  · intro h
    simp [budc_set_frequency_and_wait, h]
  · intro h
    simp [budc_set_frequency_and_wait, h]

/-- C7 as stated is false at this input: a port that is found and opened but
cannot be reconfigured (every `sp_set_*` call failing, `cfgOk = false`) still
yields a handle, because `budc_connect` discards the return values of all
seven configuration calls (budc_scpi.c, lines 80-88).  The claim demands
`none` whenever the port cannot be reconfigured. -/
theorem budc_connect_counterexample :
    (budc_connect ⟨true, true, false, true⟩).1 = some ⟨true⟩ ∧
    ¬ (budc_connect ⟨true, true, false, true⟩).1 = none := by decide

/-- C7 amended: `budc_connect` returns no handle exactly when the port lookup
fails, the open fails, or the handle allocation fails — reconfiguration
results are ignored and never prevent a handle — and every failure path
releases exactly the resources acquired so far (nothing before the lookup,
the port object after a failed open, the open connection and the port object
after a failed allocation). -/
theorem budc_connect_spec :
    ∀ (e : ConnEnv),
      ((budc_connect e).1 = none ↔
        ¬ (e.getPortOk = true ∧ e.openOk = true ∧ e.mallocOk = true)) ∧
      (e.getPortOk = false → budc_connect e = (none, [])) ∧
      (e.getPortOk = true → e.openOk = false →
        budc_connect e = (none, [ResEv.spFreePort])) ∧
      (e.getPortOk = true → e.openOk = true → e.mallocOk = false →
        budc_connect e = (none, [ResEv.cfgCalls, ResEv.spClose, ResEv.spFreePort])) ∧
      (e.getPortOk = true → e.openOk = true → e.mallocOk = true →
        budc_connect e = (some ⟨true⟩, [ResEv.cfgCalls, ResEv.flushBoth])) := by
  intro e
  obtain ⟨g, o, c, m⟩ := e
  refine ⟨?_, ?_, ?_, ?_, ?_⟩ <;>
    cases g <;> cases o <;> cases c <;> cases m <;> simp [budc_connect]

/-- C8 as stated is false: release is not idempotent.  `budc_disconnect` can
observe only whether the pointer is null; a second disconnect of the same
non-null handle therefore repeats the release calls — `free(dev)` is executed
again whichever value the dangling `dev->port` field is read as — instead of
having no effect. -/
theorem budc_disconnect_counterexample :
    ¬ budc_disconnect false true = [] ∧
    ResEv.freeDev ∈ budc_disconnect false true ∧
    ResEv.freeDev ∈ budc_disconnect false false := by decide

/-- C8 amended: `budc_disconnect` closes and releases the connection for a
non-null handle and is a no-op (performs nothing) for a null handle; but it
is not idempotent for non-null handles: the code distinguishes only null
from non-null, so disconnecting the same non-null handle a second time
re-executes the release calls (a double free) rather than having no
effect — only the null case is safely repeatable. -/
theorem budc_disconnect_spec :
    budc_disconnect true true = [] ∧
    budc_disconnect true false = [] ∧
    budc_disconnect false true =
      [ResEv.spClose, ResEv.spFreePort, ResEv.freeDev] ∧
    budc_disconnect false false = [ResEv.freeDev] := by decide

/-! ### Witnesses -/

/-- Witness for C1: four transport failures then a `0.0` reading on the final
attempt — accepted and returned as success. -/
theorem budc_get_temperature_c_plausibility_witness :
    budc_get_temperature_c
      (fun j => if j = 4 then some ['0', '.', '0'] else none) 25 = (0, 0, 5) :=
  budc_get_temperature_c_plausibility.2.2.2
    (fun j => if j = 4 then some ['0', '.', '0'] else none) 25 ['0', '.', '0']
    (fun j hj => by interval_cases j <;> rfl) rfl (by decide)
    (by norm_num [atofQ, partsToQ,
      show strtodScan (numScan ['0', '.', '0']) = ⟨1, 0, 0, 1, 0⟩ from by decide])

/-- Witness for C2: each getter at a concrete oracle, both a success within
the budget and a full exhaustion. -/
theorem getters_retry_budget_witness :
    budc_get_identity
      (fun j => if j = 1 then some ['A', 'B', 'C', '1', '2', '3'] else none) = (0, 2) ∧
    budc_get_identity (fun _ => none) = (-1, 3) ∧
    budc_get_frequency_ghz (fun j => if j = 2 then some ['5'] else none) 0 =
      (0, 1 / 200000000, 3) ∧
    budc_get_frequency_ghz (fun _ => none) 1 = (-1, 1, 3) ∧
    budc_get_lock_status (fun j => if j = 0 then some ['1'] else none) false =
      (0, true, 1) ∧
    budc_get_lock_status (fun _ => none) false = (-1, false, 3) ∧
    budc_get_power_level (fun j => if j = 1 then some ['7'] else none) 0 = (0, 7, 2) ∧
    budc_get_power_level (fun _ => none) 5 = (-1, 5, 3) ∧
    budc_get_temperature_c (fun j => if j = 3 then some ['2', '5'] else none) 0 =
      (0, 25, 4) ∧
    budc_get_temperature_c (fun _ => none) 3 = (-1, 3, 5) := by
  refine ⟨?_, ?_, ?_, ?_, ?_, ?_, ?_, ?_, ?_, ?_⟩
  · exact getters_retry_budget.1 _ 1 ['A', 'B', 'C', '1', '2', '3'] (by norm_num)
      (fun j hj => by interval_cases j <;> rfl) rfl (by norm_num)
  · exact getters_retry_budget.2.1 _ (fun j _ => rfl)
  · exact (getters_retry_budget.2.2.1 _ 0 2 ['5'] (by norm_num)
      (fun j hj => by interval_cases j <;> rfl) rfl).trans
      (by norm_num [Prod.ext_iff, atofQ, partsToQ,
        show strtodScan ['5'] = ⟨1, 5, 0, 0, 0⟩ from by decide])
  · exact getters_retry_budget.2.2.2.1 _ 1 (fun j _ => rfl)
  · exact (getters_retry_budget.2.2.2.2.1 _ false 0 ['1'] (by norm_num)
      (fun j hj => absurd hj (Nat.not_lt_zero j)) rfl).trans (by decide)
  · exact getters_retry_budget.2.2.2.2.2.1 _ false (fun j _ => rfl)
  · exact (getters_retry_budget.2.2.2.2.2.2.1 _ 0 1 ['7'] (by norm_num)
      (fun j hj => by interval_cases j <;> rfl) rfl).trans (by decide)
  · exact getters_retry_budget.2.2.2.2.2.2.2.1 _ 5 (fun j _ => rfl)
  · exact getters_retry_budget.2.2.2.2.2.2.2.2.1 _ 0 3 ['2', '5'] 25 (by norm_num)
      (fun j hj => by interval_cases j <;> rfl) rfl
      (by norm_num +decide [tempAccept, atofQ, partsToQ,
        show numScan ['2', '5'] = ['2', '5'] from by decide,
        show strtodScan ['2', '5'] = ⟨1, 25, 0, 0, 0⟩ from by decide])
  · exact getters_retry_budget.2.2.2.2.2.2.2.2.2 _ 3 (fun j _ => rfl)

/-- Witness for C4: a failed set aborts with an empty trace; a successful set
delays 200 ms and returns the lock-wait result. -/
theorem budc_set_frequency_and_wait_spec_witness :
    budc_set_frequency_and_wait (-1) (fun _ => some false) (fun _ => 0) 1000 3 =
      (some (-1), []) ∧
    budc_set_frequency_and_wait 0 (fun _ => some true) (fun _ => 0) 1000 3 =
      (some 0, [WaitEv.delayMs 200, WaitEv.lockQuery 0]) := by
  constructor
  · exact (budc_set_frequency_and_wait_spec (-1) (fun _ => some false)
      (fun _ => 0) 1000 3).1 (by decide)
  · exact ((budc_set_frequency_and_wait_spec 0 (fun _ => some true)
      (fun _ => 0) 1000 3).2 rfl).trans (by decide)

/-- Witness for C5: a reply `1` reports locked, a malformed reply `x`
reports unlocked with the getter still succeeding. -/
theorem budc_get_lock_status_spec_witness :
    budc_get_lock_status (fun j => if j = 1 then some ['1'] else none) false =
      (0, true, 2) ∧
    (budc_get_lock_status (fun j => if j = 0 then some ['x'] else none) true).2.1 =
      false := by
  constructor
  · exact ((budc_get_lock_status_spec _ false 1 ['1'] (by norm_num)
      (fun j hj => by interval_cases j <;> rfl) rfl).1).trans (by decide)
  · exact (budc_get_lock_status_spec _ true 0 ['x'] (by norm_num)
      (fun j hj => absurd hj (Nat.not_lt_zero j)) rfl).2.2 (by decide)

/-- Witness for C6: a padded reply is returned trimmed; an all-whitespace
reply and a zero-byte read fail; a non-query command succeeds with no
payload; a trimmed string starts with a non-space character. -/
theorem budc_send_raw_command_spec_witness :
    (budc_send_raw_command true ['T', 'E', 'M', 'P', '?'] true 64 7 5
      [' ', '2', '3', '.', '5']).2.1 = some ['2', '3', '.', '5'] ∧
    (budc_send_raw_command true ['P', 'W', 'R', '?'] true 16 6 2 [' ', ' ']).1 = -1 ∧
    (budc_send_raw_command true ['L', 'O', 'C', 'K', '?'] true 16 7 0 []).1 = -1 ∧
    budc_send_raw_command true ['S', 'A', 'V', 'E'] false 0 6 0 [] =
      (0, none, [SendEv.flushBoth, SendEv.write (fullCommand ['S', 'A', 'V', 'E'])]) ∧
    isSpaceC 'a' = false := by
  refine ⟨?_, ?_, ?_, ?_, ?_⟩
  · exact (((budc_send_raw_command_spec true ['T', 'E', 'M', 'P', '?'] true 64 7 5
      [' ', '2', '3', '.', '5']).1 (by decide) (by decide)).1).trans (by decide)
  · exact (budc_send_raw_command_spec true ['P', 'W', 'R', '?'] true 16 6 2
      [' ', ' ']).2.2.1 (by decide) (by decide)
  · exact (budc_send_raw_command_spec true ['L', 'O', 'C', 'K', '?'] true 16 7 0
      []).2.1 (by decide) (by decide)
  · exact (budc_send_raw_command_spec true ['S', 'A', 'V', 'E'] false 0 6 0
      []).2.2.2.1 rfl (by decide) (by decide)
  · exact ((budc_send_raw_command_spec true [] true 1 0 0 []).2.2.2.2
      [' ', 'a'] 'a').1 (by decide)

/-- Witness for C7 (amended): a failed open yields no handle and frees the
port; a failed allocation yields no handle and closes and frees the port. -/
theorem budc_connect_spec_witness :
    (budc_connect ⟨true, false, true, true⟩).1 = none ∧
    budc_connect ⟨true, false, true, true⟩ = (none, [ResEv.spFreePort]) ∧
    budc_connect ⟨true, true, true, false⟩ =
      (none, [ResEv.cfgCalls, ResEv.spClose, ResEv.spFreePort]) := by
  refine ⟨?_, ?_, ?_⟩
  · exact ((budc_connect_spec ⟨true, false, true, true⟩).1).mpr (by decide)
  · exact (budc_connect_spec ⟨true, false, true, true⟩).2.2.1 rfl rfl
  · exact (budc_connect_spec ⟨true, true, true, false⟩).2.2.2.1 rfl rfl rfl

/-- Witness for C9: when every attempt fails, each getter leaves the output
value exactly as it was before the call. -/
theorem getters_frame_on_failure_witness :
    (budc_get_frequency_ghz (fun _ => none) 5).2.1 = 5 ∧
    (budc_get_lock_status (fun _ => none) true).2.1 = true ∧
    (budc_get_temperature_c (fun _ => none) 37).2.1 = 37 ∧
    (budc_get_power_level (fun _ => none) 9).2.1 = 9 := by
  refine ⟨?_, ?_, ?_, ?_⟩
  · exact getters_frame_on_failure.1 (fun _ => none) 5 (by decide)
  · exact getters_frame_on_failure.2.1 (fun _ => none) true (by decide)
  · exact getters_frame_on_failure.2.2.1 (fun _ => none) 37 (by decide)
  · exact getters_frame_on_failure.2.2.2 (fun _ => none) 9 (by decide)

/-- Witness for C10: a `FREQ?` query with no response buffer fails with the
full terminated command already written and no read attempted. -/
theorem budc_send_raw_command_write_before_buffer_check_witness :
    budc_send_raw_command true ['F', 'R', 'E', 'Q', '?'] false 64 7 0 [] =
      (-1, none,
        [SendEv.flushBoth, SendEv.write (fullCommand ['F', 'R', 'E', 'Q', '?'])]) :=
  budc_send_raw_command_write_before_buffer_check true ['F', 'R', 'E', 'Q', '?']
    false 64 7 0 [] rfl (by decide) (Or.inl rfl) (by decide)

end Budc
